import Mathlib

/-!
# Verification of the BizScout clustering + scoring core

Shallow embedding of the spatial clustering and cluster-scoring engine:

* `src/helper/scoring_engine.py` — `get_cluster_profiles`, `rank_clusters`;
* `src/loaders/csv_loader.py` — `CSVLoader._calculate_centroid`,
  `CSVLoader._perform_clustering`.

DataFrames are embedded as lists of structures; pandas column arithmetic
becomes pointwise maps; machine floats are modelled as rationals.  External
library calls (shapely WKT parsing, the sklearn k-means optimizer) are
abstracted as explicit parameters carrying their results, while the
validation behaviour that matters to the claims is modelled explicitly.
-/

namespace BizScout

/-! ## Data model: unified business records (`BusinessRecord` table)

One row of the combined restaurant table consumed by
`get_cluster_profiles` (columns per `data_processor.py`:
id, name, review_count, rating, categories, price_category, cluster_id,
source).  `has_target_category` models the boolean column that
`get_cluster_profiles` writes onto the caller's DataFrame when a target
category is given; `none` means the column is absent for that row. -/
structure Record where
  id : String
  name : String
  review_count : ℚ
  rating : ℚ
  categories : List String
  price_category : ℚ
  cluster_id : ℤ
  source : String
  has_target_category : Option Bool
deriving DecidableEq, Repr

/-- One row of the aggregated per-cluster statistics table produced by
`get_cluster_profiles` (after `reset_index`). -/
structure ClusterProfile where
  cluster_id : ℤ
  category_count : ℕ
  total_footfall : ℚ
  avg_rating : ℚ
  avg_price : ℚ
  business_density : ℕ
deriving DecidableEq, Repr

/-- A `ClusterProfile` row plus the `score` column added by `rank_clusters`. -/
structure ScoredCluster where
  profile : ClusterProfile
  score : ℚ
deriving DecidableEq, Repr

/-! ## `get_cluster_profiles` (scoring_engine.py lines 8–44) -/

/-- Line 24: `df['has_target_category'] = df['categories'].apply(lambda cats: target_category in cats)`.
This writes a new column onto the caller's DataFrame (an in-place mutation). -/
def applyCategoryFlag (t : String) (df : List Record) : List Record :=
  df.map fun r => { r with has_target_category := some (decide (t ∈ r.categories)) }

/-- The group of rows of `df` with the given cluster id
(`df.groupby('cluster_id')` membership for one key). -/
def grpBy (df : List Record) (c : ℤ) : List Record :=
  df.filter fun r => r.cluster_id == c

/-- The group keys of `df.groupby('cluster_id')`: distinct cluster ids,
in ascending order (pandas sorts group keys). -/
def clusterKeys (df : List Record) : List ℤ :=
  List.insertionSort (· ≤ ·) (df.map (·.cluster_id)).dedup

/-- Lines 28–42: the `groupby('cluster_id').agg(...)` block followed by the
join with the per-cluster business count taken over the full table
(`df.groupby('cluster_id')['id'].count()`).  `cat_df` is the (possibly
category-filtered) table being aggregated, `full_df` the unfiltered table
used for `business_density`. -/
def aggRow (cat_df full_df : List Record) (c : ℤ) : ClusterProfile :=
  let grp := grpBy cat_df c
  { cluster_id := c
    category_count := grp.length
    total_footfall := (grp.map (·.review_count)).sum
    avg_rating := (grp.map (·.rating)).sum / (grp.length : ℚ)
    avg_price := (grp.map (·.price_category)).sum / (grp.length : ℚ)
    business_density := (grpBy full_df c).length }

def aggProfiles (cat_df full_df : List Record) : List ClusterProfile :=
  (clusterKeys cat_df).map (aggRow cat_df full_df)

/-- The rows that survive the optional category filter (lines 19–26):
with no target the whole table, otherwise the rows whose freshly written
`has_target_category` flag is `True`. -/
def filteredRecords (df : List Record) (target : Option String) : List Record :=
  match target with
  | none => df
  | some t => (applyCategoryFlag t df).filter fun r => r.has_target_category == some true

/-- The state of the caller's DataFrame after the optional in-place flag
write of line 24 (unchanged when no target category is given). -/
def flaggedRecords (df : List Record) (target : Option String) : List Record :=
  match target with
  | none => df
  | some t => applyCategoryFlag t df

/-- Embedding of `get_cluster_profiles(df, target_category)`.  The result's
first component is the returned cluster-statistics table; the second
component is the state of the caller's DataFrame `df` after the call
(Python mutates it in place on the `target_category` branch, line 24,
while the no-target branch works on `df.copy()`). -/
def get_cluster_profiles (df : List Record) (target : Option String) :
    List ClusterProfile × List Record :=
  match target with
  | none => (aggProfiles df df, df)
  | some t =>
      let df' := applyCategoryFlag t df
      (aggProfiles (df'.filter fun r => r.has_target_category == some true) df', df')

/-! ## `rank_clusters` (scoring_engine.py lines 46–95) -/

/-- The ascending comparison used by `df.sort_values(by='score')`. -/
def scoreLE (a b : ScoredCluster) : Prop := a.score ≤ b.score

instance : DecidableRel scoreLE := fun a b => inferInstanceAs (Decidable (a.score ≤ b.score))

instance : IsTotal ScoredCluster scoreLE := ⟨fun a b => le_total a.score b.score⟩

instance : IsTrans ScoredCluster scoreLE := ⟨fun _ _ _ h₁ h₂ => le_trans h₁ h₂⟩

/-- Embedding of `df.sort_values(by='score', ascending=False)`:
pandas (`nargsort`) computes the ascending argsort of the column and then
reverses the whole indexer; on inputs of this size numpy's introsort
degenerates to (stable) insertion sort, so the call is the reverse of a
stable ascending sort.  In particular rows with equal scores come out in
*reversed* input order. -/
def sortScoredDesc (l : List ScoredCluster) : List ScoredCluster :=
  (List.insertionSort scoreLE l).reverse

/-- Embedding of `rank_clusters(cluster_df, capital, risk)`: the four
`if/elif` branches write a `score` column (a weighted sum of the *raw*
feature columns); an unrecognized pair falls through every branch, so the
final `df.sort_values(by='score', ...)` raises `KeyError: 'score'`
(the column was never created), modelled as `Except.error`. -/
def rank_clusters (cluster_df : List ClusterProfile) (capital risk : String) :
    Except String (List ScoredCluster) :=
  if capital == "Low" && risk == "Low" then
    Except.ok (sortScoredDesc (cluster_df.map fun r =>
      { profile := r
        score := -3.0 * (r.category_count : ℚ) + -1.5 * r.total_footfall + -0.5 * r.avg_price }))
  else if capital == "Low" && risk == "High" then
    Except.ok (sortScoredDesc (cluster_df.map fun r =>
      { profile := r
        score := 3.0 * r.total_footfall + -2.5 * (r.category_count : ℚ) +
          -1.0 * r.avg_price + -1.5 * r.avg_rating }))
  else if capital == "High" && risk == "Low" then
    Except.ok (sortScoredDesc (cluster_df.map fun r =>
      { profile := r
        score := -2.0 * (r.category_count : ℚ) + 2.0 * r.total_footfall +
          -1.0 * r.avg_price + -0.5 * r.avg_rating }))
  else if capital == "High" && risk == "High" then
    Except.ok (sortScoredDesc (cluster_df.map fun r =>
      { profile := r
        score := 3.5 * r.total_footfall + 2.5 * r.avg_rating +
          1.5 * (r.category_count : ℚ) + 1.0 * r.avg_price }))
  else
    Except.error "KeyError: score"

/-- The coefficients a recognized strategy applies to the four raw feature
columns (competition count, footfall, rating, price); `none` for a pair
matched by no branch. -/
structure Weights where
  wCount : ℚ
  wFoot : ℚ
  wRating : ℚ
  wPrice : ℚ
deriving DecidableEq, Repr

/-- Summary of the coefficients actually used by the four branches of
`rank_clusters` (a term absent from a branch has coefficient 0). -/
def strategyWeights (capital risk : String) : Option Weights :=
  if capital == "Low" && risk == "Low" then some ⟨-3.0, -1.5, 0, -0.5⟩
  else if capital == "Low" && risk == "High" then some ⟨-2.5, 3.0, -1.5, -1.0⟩
  else if capital == "High" && risk == "Low" then some ⟨-2.0, 2.0, -0.5, -1.0⟩
  else if capital == "High" && risk == "High" then some ⟨1.5, 3.5, 2.5, 1.0⟩
  else none

/-- The weighted sum of the raw (un-normalized) feature columns. -/
def rawScore (w : Weights) (r : ClusterProfile) : ℚ :=
  w.wCount * (r.category_count : ℚ) + w.wFoot * r.total_footfall +
    w.wRating * r.avg_rating + w.wPrice * r.avg_price

/-! ## Spec-side scorer (refinement comparison for the Strategy Scorer)

The spec (§4.4) describes a *different* scorer: min-max normalize each of
the four features to [0,1] across the ClusterProfile set, then apply its
weight table to the normalized features.  The following definitions follow
the spec's words (not the source) so that they can be compared against
`rank_clusters`. -/

/-- Minimum of a list of rationals (0 on the empty list, which the spec
never scales over). -/
def listMin : List ℚ → ℚ
  | [] => 0
  | x :: xs => xs.foldl min x

/-- Maximum of a list of rationals (0 on the empty list). -/
def listMax : List ℚ → ℚ
  | [] => 0
  | x :: xs => xs.foldl max x

/-- Spec §4.4 normalization: `(x - min) / (max - min)`, with the fallback
value 0 when `max == min` (the convention the spec offers as example). -/
def mmScale (xs : List ℚ) (x : ℚ) : ℚ :=
  let mn := listMin xs
  let mx := listMax xs
  if mx = mn then 0 else (x - mn) / (mx - mn)

/-- The weight table of spec §4.4 (columns Footfall, Rating, Price,
Competition), stored in `Weights` field order (competition, footfall,
rating, price). -/
def specStrategyWeights (capital risk : String) : Option Weights :=
  if capital == "Low" && risk == "Low" then some ⟨-3.0, -2.0, 1.0, -1.0⟩
  else if capital == "Low" && risk == "High" then some ⟨-1.5, 2.0, -2.5, -1.0⟩
  else if capital == "High" && risk == "Low" then some ⟨-3.0, 2.5, 1.5, 0.5⟩
  else if capital == "High" && risk == "High" then some ⟨1.5, 3.0, 2.5, 1.0⟩
  else none

/-- The scorer as the spec §4.4 words it: score each profile by the
weighted sum of its min-max normalized features (normalized across the
current ClusterProfile set), then sort descending. -/
def rank_clusters_spec (cluster_df : List ClusterProfile) (capital risk : String) :
    Except String (List ScoredCluster) :=
  match specStrategyWeights capital risk with
  | none => Except.error "unrecognized (capital, risk) pair"
  | some w =>
      let foots := cluster_df.map (·.total_footfall)
      let ratings := cluster_df.map (·.avg_rating)
      let prices := cluster_df.map (·.avg_price)
      let counts := cluster_df.map (fun r => (r.category_count : ℚ))
      Except.ok (sortScoredDesc (cluster_df.map fun r =>
        { profile := r
          score := w.wFoot * mmScale foots r.total_footfall +
            w.wRating * mmScale ratings r.avg_rating +
            w.wPrice * mmScale prices r.avg_price +
            w.wCount * mmScale counts (r.category_count : ℚ) }))

/-! ## Geometry centroid extraction (csv_loader.py lines 55–76)

`_calculate_centroid` calls `shapely.wkt.loads` on the geometry string and
reads `geom.centroid`.  The external shapely computation is abstracted by
its outcome: `Except.ok g` when the string parses into a shape whose
centroid is the point `g`, `Except.error e` when `shapely.wkt.loads`
raises. -/

/-- The centroid point of a successfully parsed geometry, in the stored
geometry's native (x = longitude, y = latitude) axis order. -/
structure Geom where
  x : ℚ
  y : ℚ
deriving DecidableEq, Repr

/-- The extractor's result row: latitude/longitude as the Python dict
`{'latitude': ..., 'longitude': ...}`. -/
structure Centroid where
  latitude : ℚ
  longitude : ℚ
deriving DecidableEq, Repr

/-- Embedding of `CSVLoader._calculate_centroid`: on a parse success it
returns latitude := centroid.y and longitude := centroid.x; the
`try/except` turns any parse failure into `None` (the function is total —
it never raises). -/
def calculateCentroid (parsed : Except String Geom) : Option Centroid :=
  match parsed with
  | Except.ok g => some { latitude := g.y, longitude := g.x }
  | Except.error _ => none

/-! ## Frequency-weighted clustering (csv_loader.py lines 78–140) -/

/-- Round-half-to-even to an integer (the rounding mode of
`numpy.round` / float formatting). -/
def roundHalfEven (q : ℚ) : ℤ :=
  let f := ⌊q⌋
  if q - (f : ℚ) < 1/2 then f
  else if (1:ℚ)/2 < q - (f : ℚ) then f + 1
  else if f % 2 = 0 then f else f + 1

/-- Rounding of `Series.round(4)`: round to 4 decimal places. -/
def round4 (q : ℚ) : ℚ := (roundHalfEven (q * 10000) : ℚ) / 10000

/-- One row of the zoning DataFrame as it enters `_perform_clustering`:
the zoning attributes (abbreviated by `zone_cmplt`) plus the
`centroid_latitude` / `centroid_longitude` columns written by
`_load_zoning_data` (`none` = NaN, for rows whose geometry failed to
parse). -/
structure ZoneRecord where
  zone_cmplt : String
  centroid_latitude : Option ℚ
  centroid_longitude : Option ℚ
deriving DecidableEq, Repr

/-- A zoning row after lines 90–91 added the `lat_rounded` /
`long_rounded` columns. -/
structure RoundedRecord where
  base : ZoneRecord
  lat_rounded : Option ℚ
  long_rounded : Option ℚ
deriving DecidableEq, Repr

/-- A zoning row as returned on the success path (after line 133 dropped
the temporary columns): the original attributes plus the `cluster` and
`centroid_coord` columns (`none` = NaN / `None`). -/
structure ClusteredRecord where
  base : ZoneRecord
  cluster : Option ℕ
  centroid_coord : Option (ℚ × ℚ)
deriving DecidableEq, Repr

/-- Lines 90–91: add the rounded-coordinate columns. -/
def addRounded (df : List ZoneRecord) : List RoundedRecord :=
  df.map fun r => ⟨r, r.centroid_latitude.map round4, r.centroid_longitude.map round4⟩

/-- The groupby key of a row: present only when both rounded coordinates
are non-NaN (pandas `groupby` drops rows with a NaN key). -/
def roundedKey (r : RoundedRecord) : Option (ℚ × ℚ) :=
  match r.lat_rounded, r.long_rounded with
  | some a, some b => some (a, b)
  | _, _ => none

/-- Lexicographic order on coordinate pairs (the order pandas sorts
two-column group keys in). -/
def pairLE (a b : ℚ × ℚ) : Prop := a.1 < b.1 ∨ (a.1 = b.1 ∧ a.2 ≤ b.2)

instance : DecidableRel pairLE := fun a b =>
  inferInstanceAs (Decidable (a.1 < b.1 ∨ (a.1 = b.1 ∧ a.2 ≤ b.2)))

/-- Line 94 (`freq_df` keys): the distinct rounded coordinate pairs, in
sorted group-key order. -/
def freqKeys (rdf : List RoundedRecord) : List (ℚ × ℚ) :=
  List.insertionSort pairLE (rdf.filterMap roundedKey).dedup

/-- Line 97 (`repeated_rows`): every distinct rounded coordinate replicated
`frequency` times, frequency being how many rows share it. -/
def repeatedCoords (rdf : List RoundedRecord) : List (ℚ × ℚ) :=
  (freqKeys rdf).flatMap fun k => List.replicate ((rdf.filterMap roundedKey).count k) k

/-- Model of `KMeans(n_clusters=K, random_state=42).fit_predict(coords)`:
sklearn validates the configuration, raising `ValueError` when
`n_clusters ≤ 0` or when there are fewer samples than clusters; the
iterative optimization itself is abstracted as the oracle `assign`,
returning one label per sample together with the K cluster centers. -/
def kmeansFitPredict (K : ℤ) (assign : List (ℚ × ℚ) → List ℕ × List (ℚ × ℚ))
    (coords : List (ℚ × ℚ)) : Except String (List ℕ × List (ℚ × ℚ)) :=
  if K ≤ 0 ∨ (coords.length : ℤ) < K then
    Except.error "ValueError: n_samples should be >= n_clusters"
  else Except.ok (assign coords)

/-- The labels that the replicated instances of the rounded coordinate `k`
received (`repeated_rows.groupby(['lat_rounded','long_rounded'])['cluster']`
for one key). -/
def labelsFor (samples : List (ℚ × ℚ)) (labels : List ℕ) (k : ℚ × ℚ) : List ℕ :=
  (samples.zip labels).filterMap fun pl => if pl.1 = k then some pl.2 else none

/-- Line 108–110 for one key: `x.value_counts().idxmax()` — a label of
maximal multiplicity (the mode). -/
def modeOf (ls : List ℕ) : Option ℕ := ls.argmax fun l => ls.count l

/-- The `label_map` of lines 108–110 as a function from rounded
coordinates to cluster labels. -/
def labelMap (samples : List (ℚ × ℚ)) (labels : List ℕ) (k : ℚ × ℚ) : Option ℕ :=
  modeOf (labelsFor samples labels k)

/-- The two possible shapes of `_perform_clustering`'s returned DataFrame:
the success path (cluster and centroid-string columns added, temporaries
dropped) or the `except` path of lines 138–140, which logs the error and
returns the DataFrame as already mutated by lines 90–91 — the exception is
swallowed, never re-raised. -/
inductive PerformClusteringResult where
  | success : List ClusteredRecord → PerformClusteringResult
  | caught : List RoundedRecord → PerformClusteringResult
deriving DecidableEq, Repr

/-- The per-row effect of the two left merges (lines 120, 123) and the
`centroid_coord` construction (lines 126–130) followed by dropping the
temporary columns (line 133): a row whose rounded key is NaN, or whose key
is absent from `label_map`, keeps NaN cluster and `None` coordinate;
otherwise the row gets its key's mode label and the 4-decimal rendering of
that cluster's k-means center (`f"({lat:.4f}, {long:.4f})"`, modelled as
the rounded pair). -/
def assignRow (samples : List (ℚ × ℚ)) (labels : List ℕ) (centers : List (ℚ × ℚ))
    (r : RoundedRecord) : ClusteredRecord :=
  { base := r.base
    cluster := (roundedKey r).bind (labelMap samples labels)
    centroid_coord := ((roundedKey r).bind (labelMap samples labels)).bind fun c =>
      (centers[c]?).map fun ctr => (round4 ctr.1, round4 ctr.2) }

/-- Embedding of `CSVLoader._perform_clustering` with cluster count `K`
(`self.n_clusters`) and the k-means optimizer abstracted as `assign`. -/
def performClustering (K : ℤ) (assign : List (ℚ × ℚ) → List ℕ × List (ℚ × ℚ))
    (df : List ZoneRecord) : PerformClusteringResult :=
  let rdf := addRounded df
  let samples := repeatedCoords rdf
  match kmeansFitPredict K assign samples with
  | Except.error _ => PerformClusteringResult.caught rdf
  | Except.ok (labels, centers) =>
      PerformClusteringResult.success (rdf.map (assignRow samples labels centers))

/-! ## Concrete fixtures used by witnesses and counterexamples -/

/-- Removing the optional flag column (used to compare DataFrames up to
the `has_target_category` column). -/
def eraseFlag (r : Record) : Record := { r with has_target_category := none }

def sampleRec0 : Record :=
  ⟨"a", "A", 10, 4, ["Pizza"], 2, 0, "yelp", none⟩

def sampleRec1 : Record :=
  ⟨"b", "B", 20, 3, ["Sushi"], 1, 0, "yelp", none⟩

def sampleDf : List Record := [sampleRec0, sampleRec1]

def sampleProfile0 : ClusterProfile := ⟨0, 1, 0, 0, 0, 1⟩

def sampleProfile1 : ClusterProfile := ⟨1, 2, 1, 1, 1, 2⟩

/-- Two distinct profiles with identical feature columns (hence equal
scores under every strategy). -/
def tieProfile0 : ClusterProfile := ⟨0, 1, 1, 1, 1, 1⟩

def tieProfile1 : ClusterProfile := ⟨1, 1, 1, 1, 1, 2⟩

/-- The cluster-0 row of `get_cluster_profiles sampleDf (some "Pizza")`. -/
def pizzaRow : ClusterProfile := ⟨0, 1, 10, 4, 2, 2⟩

/-- The cluster-0 row of `get_cluster_profiles sampleDf none`. -/
def allRow : ClusterProfile := ⟨0, 2, 30, 7/2, 3/2, 2⟩

def zoneA : ZoneRecord := ⟨"Z1", some 1, some 2⟩

def zoneB : ZoneRecord := ⟨"Z2", some 1, some 2⟩

def zoneNoGeom : ZoneRecord := ⟨"Z3", none, none⟩

def zonePairDf : List ZoneRecord := [zoneA, zoneB]

def zoneTripleDf : List ZoneRecord := [zoneA, zoneB, zoneNoGeom]

/-- A k-means oracle that returns no labels and no centers (its output is
irrelevant on the validation-failure path). -/
def kmAssignEmpty : List (ℚ × ℚ) → List ℕ × List (ℚ × ℚ) := fun _ => ([], [])

/-- A concrete single-cluster k-means outcome: both samples labelled 0,
one center at (5, 6). -/
def kmAssignOne : List (ℚ × ℚ) → List ℕ × List (ℚ × ℚ) := fun _ => ([0, 0], [(5, 6)])

/-! ## Helper lemmas -/

theorem sortScoredDesc_perm (l : List ScoredCluster) : (sortScoredDesc l).Perm l :=
  ((List.insertionSort scoreLE l).reverse_perm).trans (List.perm_insertionSort scoreLE l)

theorem sortScoredDesc_sorted (l : List ScoredCluster) :
    (sortScoredDesc l).Sorted fun a b => b.score ≤ a.score := by
  have h := List.sorted_insertionSort scoreLE l
  unfold sortScoredDesc
  rw [List.Sorted, List.pairwise_reverse]
  exact h

theorem sortScoredDesc_map_profile_perm (rows : List ClusterProfile) (f : ClusterProfile → ℚ) :
    ((sortScoredDesc (rows.map fun r => ⟨r, f r⟩)).map ScoredCluster.profile).Perm rows := by
  have hp := (sortScoredDesc_perm (rows.map fun r =>
    (⟨r, f r⟩ : ScoredCluster))).map ScoredCluster.profile
  rw [List.map_map] at hp
  have hcomp : (ScoredCluster.profile ∘ fun r => (⟨r, f r⟩ : ScoredCluster)) = id := rfl
  rw [hcomp, List.map_id] at hp
  exact hp

/-! ## Claim theorems -/

theorem roundedKey_addRounded_filter (df : List ZoneRecord) :
    (addRounded (df.filter fun r =>
      r.centroid_latitude.isSome && r.centroid_longitude.isSome)).filterMap roundedKey =
      (addRounded df).filterMap roundedKey := by
  induction df with
  | nil => rfl
  | cons r rs ih =>
      by_cases hla : r.centroid_latitude.isSome
      · by_cases hlo : r.centroid_longitude.isSome
        · obtain ⟨a, ha⟩ := Option.isSome_iff_exists.mp hla
          obtain ⟨b, hb⟩ := Option.isSome_iff_exists.mp hlo
          simp only [addRounded, List.map_cons, List.filterMap_map] at ih ⊢
          simp [List.filter_cons, ha, hb, roundedKey, List.filterMap_cons, ih]
        · have hb := Option.not_isSome_iff_eq_none.mp hlo
          simp only [addRounded, List.map_cons, List.filterMap_map] at ih ⊢
          simp [List.filter_cons, hla, hb, roundedKey, List.filterMap_cons, ih]
      · have ha := Option.not_isSome_iff_eq_none.mp hla
        simp only [addRounded, List.map_cons, List.filterMap_map] at ih ⊢
        simp [List.filter_cons, ha, roundedKey, List.filterMap_cons, ih]

theorem mem_repeatedCoords {rdf : List RoundedRecord} {k : ℚ × ℚ}
    (h : k ∈ rdf.filterMap roundedKey) : k ∈ repeatedCoords rdf := by
  unfold repeatedCoords
  rw [List.mem_flatMap]
  refine ⟨k, ?_, ?_⟩
  · unfold freqKeys
    rw [(List.perm_insertionSort _ _).mem_iff, List.mem_dedup]
    exact h
  · rw [List.mem_replicate]
    exact ⟨(List.count_pos_iff.mpr h).ne', rfl⟩

theorem labelsFor_ne_nil {samples : List (ℚ × ℚ)} {labels : List ℕ} {k : ℚ × ℚ}
    (hlen : labels.length = samples.length) (hk : k ∈ samples) :
    labelsFor samples labels k ≠ [] := by
  induction samples generalizing labels with
  | nil => cases hk
  | cons s ss ih =>
      cases labels with
      | nil => simp at hlen
      | cons l ls =>
          unfold labelsFor
          rw [List.zip_cons_cons, List.filterMap_cons]
          by_cases hsk : (s, l).1 = k
          · rw [if_pos hsk]
            simp
          · rw [if_neg hsk]
            have hk' : k ∈ ss := by
              rcases List.mem_cons.mp hk with h | h
              · exact absurd h.symm hsk
              · exact h
            exact ih (by simpa using hlen) hk'

theorem labelsFor_sublabels {samples : List (ℚ × ℚ)} {labels : List ℕ} {k : ℚ × ℚ} :
    ∀ l ∈ labelsFor samples labels k, l ∈ labels := by
  intro l hl
  unfold labelsFor at hl
  obtain ⟨⟨p, m⟩, hpm, heq⟩ := List.mem_filterMap.mp hl
  by_cases hpk : (p, m).1 = k
  · rw [if_pos hpk] at heq
    obtain rfl := Option.some.inj heq
    exact (List.of_mem_zip hpm).2
  · rw [if_neg hpk] at heq
    exact Option.noConfusion heq

theorem gcp_fst (df : List Record) (target : Option String) :
    (get_cluster_profiles df target).1 =
      aggProfiles (filteredRecords df target) (flaggedRecords df target) := by
  cases target <;> rfl

theorem mem_clusterKeys {df : List Record} {c : ℤ} :
    c ∈ clusterKeys df ↔ ∃ r ∈ df, r.cluster_id = c := by
  unfold clusterKeys
  rw [(List.perm_insertionSort _ _).mem_iff, List.mem_dedup, List.mem_map]

theorem clusterKeys_nodup (df : List Record) : (clusterKeys df).Nodup :=
  ((List.perm_insertionSort _ _).nodup_iff).mpr (List.nodup_dedup _)

theorem grpBy_applyCategoryFlag (t : String) (df : List Record) (c : ℤ) :
    grpBy (applyCategoryFlag t df) c =
      (grpBy df c).map fun r =>
        { r with has_target_category := some (decide (t ∈ r.categories)) } := by
  unfold grpBy applyCategoryFlag
  rw [List.filter_map]
  rfl

/-- C9: calling `rank_clusters` with a (capital, risk) pair outside the four
recognized pairs matches none of the `if/elif` branches, so no `score`
column is created and the final `sort_values(by='score')` raises
(`KeyError`), surfacing a fatal error to the caller; no default strategy is
silently substituted and no unscored table is returned. -/
theorem rank_clusters_unknown_pair_errors (rows : List ClusterProfile) (capital risk : String)
    (h : strategyWeights capital risk = none) :
    rank_clusters rows capital risk = Except.error "KeyError: score" := by
  unfold strategyWeights at h
  unfold rank_clusters
  split_ifs at h ⊢
  all_goals simp_all

theorem rank_clusters_unknown_pair_errors_witness :
    rank_clusters [sampleProfile0] "Medium" "Low" = Except.error "KeyError: score" :=
  rank_clusters_unknown_pair_errors _ _ _ (by decide)

/-- C10: for every recognized (capital, risk) pair, `rank_clusters` on an
empty ClusterProfile table returns an empty ranked table and raises no
error. -/
theorem rank_clusters_empty_input_ok (capital risk : String) (w : Weights)
    (h : strategyWeights capital risk = some w) :
    rank_clusters [] capital risk = Except.ok [] := by
  unfold strategyWeights at h
  unfold rank_clusters
  split_ifs at h ⊢ <;> simp_all [sortScoredDesc, List.insertionSort]

theorem rank_clusters_empty_input_ok_witness :
    strategyWeights "Low" "Low" = some ⟨-3.0, -1.5, 0, -0.5⟩ ∧
    rank_clusters [] "Low" "Low" = Except.ok [] :=
  ⟨by norm_num [strategyWeights], rank_clusters_empty_input_ok "Low" "Low" ⟨-3.0, -1.5, 0, -0.5⟩
    (by norm_num [strategyWeights])⟩

/-- C1 (counterexample): the claimed scorer (min-max normalization followed
by the spec's weight table) disagrees with `rank_clusters` on a concrete
two-cluster table under (Low, Low): the code produces raw-feature scores
[-3, -8] where the spec's normalized scorer produces [0, -5]. -/
theorem rank_clusters_differs_from_spec_scorer :
    Except.map (List.map ScoredCluster.score)
        (rank_clusters [sampleProfile0, sampleProfile1] "Low" "Low") ≠
      Except.map (List.map ScoredCluster.score)
        (rank_clusters_spec [sampleProfile0, sampleProfile1] "Low" "Low") := by
  norm_num [rank_clusters, rank_clusters_spec, specStrategyWeights, sortScoredDesc,
    List.insertionSort, List.orderedInsert, scoreLE, sampleProfile0, sampleProfile1,
    mmScale, listMin, listMax, Except.map]

/-- C1 (amended): `rank_clusters` performs no normalization; for every
recognized (capital, risk) pair each cluster's score is the weighted sum of
the *raw* feature columns with the coefficients of `strategyWeights`
(Low/Low: competition −3.0, footfall −1.5, price −0.5, rating unused;
Low/High: footfall +3.0, competition −2.5, price −1.0, rating −1.5;
High/Low: competition −2.0, footfall +2.0, price −1.0, rating −0.5;
High/High: footfall +3.5, rating +2.5, competition +1.5, price +1.0), and
the output is that scored table sorted descending by score, with no
normalized-feature columns. -/
theorem rank_clusters_scores_raw_features (rows : List ClusterProfile) (capital risk : String)
    (w : Weights) (h : strategyWeights capital risk = some w) :
    rank_clusters rows capital risk =
      Except.ok (sortScoredDesc (rows.map fun r => ⟨r, rawScore w r⟩)) := by
  unfold strategyWeights at h
  unfold rank_clusters
  split_ifs at h ⊢ <;>
    first
    | exact Option.noConfusion h
    | (obtain rfl := Option.some.inj h
       refine congrArg Except.ok (congrArg sortScoredDesc (List.map_congr_left fun r _ => ?_))
       exact congrArg (ScoredCluster.mk r) (by simp only [rawScore]; ring))

theorem rank_clusters_scores_raw_features_witness :
    strategyWeights "Low" "Low" = some ⟨-3.0, -1.5, 0, -0.5⟩ ∧
    rank_clusters [sampleProfile0, sampleProfile1] "Low" "Low" =
      Except.ok (sortScoredDesc ([sampleProfile0, sampleProfile1].map fun r =>
        ⟨r, rawScore ⟨-3.0, -1.5, 0, -0.5⟩ r⟩)) :=
  ⟨by norm_num [strategyWeights],
    rank_clusters_scores_raw_features [sampleProfile0, sampleProfile1] "Low" "Low"
      ⟨-3.0, -1.5, 0, -0.5⟩ (by norm_num [strategyWeights])⟩

/-- C5 (counterexample): ties are not kept in input order.  On two distinct
profiles with identical features (hence equal scores), pandas' descending
sort — the reverse of the ascending argsort — returns them in *reversed*
input order, refuting "rows with equal scores appear in the same relative
order as in the input". -/
theorem rank_clusters_tie_order_reversed :
    tieProfile0 ≠ tieProfile1 ∧
    rank_clusters [tieProfile0, tieProfile1] "Low" "Low" =
      Except.ok [⟨tieProfile1, -5⟩, ⟨tieProfile0, -5⟩] := by
  refine ⟨by decide, ?_⟩
  norm_num [rank_clusters, sortScoredDesc, List.insertionSort, List.orderedInsert, scoreLE,
    tieProfile0, tieProfile1]

/-- C5 (amended): every successful `rank_clusters` output is sorted by
score in descending order and is a permutation (by profile) of the input
ClusterProfile table; the tie order is *not* the input order (pandas'
default `sort_values(ascending=False)` reverses an ascending argsort and
is not a stable tie-preserving sort). -/
theorem rank_clusters_output_sorted_desc (rows : List ClusterProfile) (capital risk : String)
    (out : List ScoredCluster) (h : rank_clusters rows capital risk = Except.ok out) :
    out.Sorted (fun a b => b.score ≤ a.score) ∧ (out.map ScoredCluster.profile).Perm rows := by
  unfold rank_clusters at h
  split_ifs at h <;>
    first
    | exact Except.noConfusion h
    | (injection h with h'
       subst h'
       exact ⟨sortScoredDesc_sorted _, sortScoredDesc_map_profile_perm rows _⟩)

theorem rank_clusters_output_sorted_desc_witness :
    ([(⟨tieProfile0, 8.5⟩ : ScoredCluster)].Sorted fun a b => b.score ≤ a.score) ∧
    ([(⟨tieProfile0, 8.5⟩ : ScoredCluster)].map ScoredCluster.profile).Perm [tieProfile0] :=
  rank_clusters_output_sorted_desc [tieProfile0] "High" "High" [⟨tieProfile0, 8.5⟩]
    (by
      norm_num [rank_clusters, sortScoredDesc, List.insertionSort, List.orderedInsert,
        tieProfile0]
      rw [if_neg (by decide), if_neg (by decide), if_neg (by decide)])

/-- C6 (counterexample): with a target category, `get_cluster_profiles`
writes the `has_target_category` column onto the caller's DataFrame
(line 24), so the input is *not* unchanged after the call. -/
theorem get_cluster_profiles_mutates_input :
    (get_cluster_profiles sampleDf (some "Pizza")).2 ≠ sampleDf := by
  decide

/-- C6 (amended): `get_cluster_profiles` leaves its input untouched when no
target category is given (it works on a copy), but with a target category
it adds exactly the boolean `has_target_category` column to the caller's
DataFrame — same rows and all other columns unchanged. -/
theorem get_cluster_profiles_frame_effect (df : List Record) (t : String) :
    (get_cluster_profiles df none).2 = df ∧
    (get_cluster_profiles df (some t)).2 = applyCategoryFlag t df ∧
    ((get_cluster_profiles df (some t)).2).map eraseFlag = df.map eraseFlag := by
  refine ⟨rfl, rfl, ?_⟩
  show (applyCategoryFlag t df).map eraseFlag = df.map eraseFlag
  unfold applyCategoryFlag
  rw [List.map_map]
  rfl

/-- C4: `business_density` is always computed by grouping the *unfiltered*
table (line 41 uses `df`, not `cat_df`), so every output row's density is
the total business count of its cluster in the whole table; consequently,
for a cluster present in both a category-filtered run and an unfiltered
run over the same table, the two densities are equal (in particular the
filtered one is never greater). -/
theorem business_density_ignores_category_filter (df : List Record) (target : Option String) :
    (∀ row ∈ (get_cluster_profiles df target).1,
      row.business_density = (grpBy df row.cluster_id).length) ∧
    (∀ (t : String) (row₁ row₂ : ClusterProfile),
      row₁ ∈ (get_cluster_profiles df (some t)).1 →
      row₂ ∈ (get_cluster_profiles df none).1 →
      row₁.cluster_id = row₂.cluster_id →
      row₁.business_density = row₂.business_density) := by
  have key : ∀ (tg : Option String), ∀ row ∈ (get_cluster_profiles df tg).1,
      row.business_density = (grpBy df row.cluster_id).length := by
    intro tg row h
    rw [gcp_fst] at h
    obtain ⟨c, hc, rfl⟩ := List.mem_map.mp h
    show (grpBy (flaggedRecords df tg) c).length = (grpBy df c).length
    cases tg with
    | none => rfl
    | some t =>
        show (grpBy (applyCategoryFlag t df) c).length = (grpBy df c).length
        rw [grpBy_applyCategoryFlag, List.length_map]
  refine ⟨key target, fun t row₁ row₂ h₁ h₂ hcc => ?_⟩
  rw [key (some t) row₁ h₁, key none row₂ h₂, hcc]

theorem business_density_ignores_category_filter_witness :
    (pizzaRow.business_density = (grpBy sampleDf pizzaRow.cluster_id).length) ∧
    pizzaRow.business_density = allRow.business_density :=
  ⟨(business_density_ignores_category_filter sampleDf (some "Pizza")).1 pizzaRow (by
      simp only [get_cluster_profiles, applyCategoryFlag, aggProfiles, aggRow, clusterKeys,
        grpBy, List.insertionSort, List.orderedInsert, sampleDf, sampleRec0, sampleRec1,
        pizzaRow, String.reduceEq, List.map, List.filter, List.dedup, List.mem_cons,
        List.mem_singleton, decide_True, decide_False]
      norm_num),
   (business_density_ignores_category_filter sampleDf none).2 "Pizza" pizzaRow allRow
     (by
       simp only [get_cluster_profiles, applyCategoryFlag, aggProfiles, aggRow, clusterKeys,
         grpBy, List.insertionSort, List.orderedInsert, sampleDf, sampleRec0, sampleRec1,
         pizzaRow, String.reduceEq, List.map, List.filter, List.dedup, List.mem_cons,
         List.mem_singleton, decide_True, decide_False]
       norm_num)
     (by
       simp only [get_cluster_profiles, aggProfiles, aggRow, clusterKeys, grpBy,
         List.insertionSort, List.orderedInsert, sampleDf, sampleRec0, sampleRec1, allRow,
         List.map, List.filter, List.dedup]
       norm_num)
     rfl⟩

/-- C8: after the optional category filter, `get_cluster_profiles` emits
exactly one row per cluster id having at least one matching record (the
`groupby` keys are distinct, and a cluster id appears in the output iff
some filtered record carries it — clusters with zero matching records are
absent, not zero-rows), and each row's statistics are computed over that
cluster's matching records: `category_count` = row count,
`total_footfall` = sum of `review_count`, `avg_rating` = mean of `rating`,
`avg_price` = mean of `price_category`. -/
theorem get_cluster_profiles_per_cluster_stats (df : List Record) (target : Option String) :
    ((get_cluster_profiles df target).1.map ClusterProfile.cluster_id).Nodup ∧
    (∀ c : ℤ,
      (∃ row ∈ (get_cluster_profiles df target).1, row.cluster_id = c) ↔
        ∃ r ∈ filteredRecords df target, r.cluster_id = c) ∧
    (∀ row ∈ (get_cluster_profiles df target).1,
      grpBy (filteredRecords df target) row.cluster_id ≠ [] ∧
      row.category_count = (grpBy (filteredRecords df target) row.cluster_id).length ∧
      row.total_footfall =
        ((grpBy (filteredRecords df target) row.cluster_id).map (·.review_count)).sum ∧
      row.avg_rating =
        ((grpBy (filteredRecords df target) row.cluster_id).map (·.rating)).sum /
          ((grpBy (filteredRecords df target) row.cluster_id).length : ℚ) ∧
      row.avg_price =
        ((grpBy (filteredRecords df target) row.cluster_id).map (·.price_category)).sum /
          ((grpBy (filteredRecords df target) row.cluster_id).length : ℚ)) := by
  rw [gcp_fst]
  refine ⟨?_, ?_, ?_⟩
  · rw [aggProfiles, List.map_map]
    have he : List.map
        (ClusterProfile.cluster_id ∘
          aggRow (filteredRecords df target) (flaggedRecords df target))
        (clusterKeys (filteredRecords df target)) =
        List.map id (clusterKeys (filteredRecords df target)) :=
      List.map_congr_left fun x _ => rfl
    rw [he, List.map_id]
    exact clusterKeys_nodup _
  · intro c
    constructor
    · rintro ⟨row, hrow, rfl⟩
      obtain ⟨k, hk, rfl⟩ := List.mem_map.mp hrow
      exact mem_clusterKeys.mp hk
    · intro hex
      exact ⟨aggRow _ _ c, List.mem_map.mpr ⟨c, mem_clusterKeys.mpr hex, rfl⟩, rfl⟩
  · intro row hrow
    obtain ⟨k, hk, rfl⟩ := List.mem_map.mp hrow
    refine ⟨?_, rfl, rfl, rfl, rfl⟩
    obtain ⟨r, hr, hrc⟩ := mem_clusterKeys.mp hk
    have hmem : r ∈ grpBy (filteredRecords df target) k := by
      unfold grpBy
      rw [List.mem_filter]
      exact ⟨hr, by simp [hrc]⟩
    exact List.ne_nil_of_mem hmem

theorem get_cluster_profiles_per_cluster_stats_witness :
    grpBy (filteredRecords sampleDf (some "Pizza")) pizzaRow.cluster_id ≠ [] ∧
    pizzaRow.category_count =
      (grpBy (filteredRecords sampleDf (some "Pizza")) pizzaRow.cluster_id).length ∧
    pizzaRow.total_footfall =
      ((grpBy (filteredRecords sampleDf (some "Pizza")) pizzaRow.cluster_id).map
        (·.review_count)).sum ∧
    pizzaRow.avg_rating =
      ((grpBy (filteredRecords sampleDf (some "Pizza")) pizzaRow.cluster_id).map
        (·.rating)).sum /
        ((grpBy (filteredRecords sampleDf (some "Pizza")) pizzaRow.cluster_id).length : ℚ) ∧
    pizzaRow.avg_price =
      ((grpBy (filteredRecords sampleDf (some "Pizza")) pizzaRow.cluster_id).map
        (·.price_category)).sum /
        ((grpBy (filteredRecords sampleDf (some "Pizza")) pizzaRow.cluster_id).length : ℚ) :=
  (get_cluster_profiles_per_cluster_stats sampleDf (some "Pizza")).2.2 pizzaRow (by
    simp only [get_cluster_profiles, applyCategoryFlag, aggProfiles, aggRow, clusterKeys,
      grpBy, List.insertionSort, List.orderedInsert, sampleDf, sampleRec0, sampleRec1,
      pizzaRow, String.reduceEq, List.map, List.filter, List.dedup, List.mem_cons,
      List.mem_singleton, decide_True, decide_False]
    norm_num)

/-- C2 (counterexample): with K = 3 and a point set whose rounded
coordinates are all identical (one distinct coordinate, two weighted
samples), the k-means call fails its validation — but `_perform_clustering`
*returns normally*: the `except` block (lines 138–140) logs and returns the
DataFrame already carrying the freshly added `lat_rounded`/`long_rounded`
columns.  No error reaches the caller, refuting "fails fatally and the
error is surfaced to the caller, with no partial clustering result". -/
theorem clustering_config_error_not_surfaced :
    (freqKeys (addRounded zonePairDf)).length = 1 ∧
    performClustering 3 kmAssignEmpty zonePairDf =
      PerformClusteringResult.caught
        [⟨zoneA, some 1, some 2⟩, ⟨zoneB, some 1, some 2⟩] := by
  constructor <;>
    norm_num [performClustering, kmeansFitPredict, repeatedCoords, freqKeys, addRounded,
      roundedKey, round4, roundHalfEven, pairLE, zonePairDf, zoneA, zoneB, kmAssignEmpty,
      List.insertionSort, List.orderedInsert, List.dedup, List.count_cons, List.count_nil,
      Int.floor_ofNat, List.filterMap_cons, List.filterMap_nil, List.length_replicate,
      List.replicate_succ, List.replicate_zero, beq_iff_eq, Prod.mk.injEq]

/-- C2 (amended): when the clustering configuration is invalid (K ≤ 0, or K
exceeds the number of weighted samples so that the k-means call raises),
`_perform_clustering` catches and logs the exception and returns the input
DataFrame augmented with the rounded-coordinate columns and no cluster
assignments; the error is swallowed, not surfaced to the caller. -/
theorem performClustering_swallows_config_error (K : ℤ)
    (assign : List (ℚ × ℚ) → List ℕ × List (ℚ × ℚ)) (df : List ZoneRecord)
    (h : K ≤ 0 ∨ ((repeatedCoords (addRounded df)).length : ℤ) < K) :
    performClustering K assign df = PerformClusteringResult.caught (addRounded df) := by
  simp only [performClustering, kmeansFitPredict]
  rw [if_pos h]

theorem performClustering_swallows_config_error_witness :
    ((3:ℤ) ≤ 0 ∨ ((repeatedCoords (addRounded zonePairDf)).length : ℤ) < 3) ∧
    performClustering 3 kmAssignEmpty zonePairDf =
      PerformClusteringResult.caught (addRounded zonePairDf) :=
  ⟨by
    norm_num [repeatedCoords, freqKeys, addRounded, roundedKey, round4, roundHalfEven,
      pairLE, zonePairDf, zoneA, zoneB, List.insertionSort, List.orderedInsert, List.dedup,
      List.count_cons, List.count_nil, Int.floor_ofNat, List.filterMap_cons,
      List.filterMap_nil, List.length_replicate, List.replicate_succ, List.replicate_zero,
      beq_iff_eq, Prod.mk.injEq],
   performClustering_swallows_config_error 3 kmAssignEmpty zonePairDf (by
    norm_num [repeatedCoords, freqKeys, addRounded, roundedKey, round4, roundHalfEven,
      pairLE, zonePairDf, zoneA, zoneB, List.insertionSort, List.orderedInsert, List.dedup,
      List.count_cons, List.count_nil, Int.floor_ofNat, List.filterMap_cons,
      List.filterMap_nil, List.length_replicate, List.replicate_succ, List.replicate_zero,
      beq_iff_eq, Prod.mk.injEq])⟩

/-- C7: `_calculate_centroid` is total (the `try/except` means it never
raises): when the geometry string parses, it returns latitude := the
centroid's Y-coordinate and longitude := the X-coordinate (never swapped);
when `shapely.wkt.loads` raises on a malformed string it returns `None`
(and logs).  Downstream, a record with a missing centroid contributes
nothing to the clustering input: the weighted sample set is unchanged if
such records are dropped, so the pipeline proceeds without them instead of
aborting. -/
theorem calculateCentroid_contract :
    (∀ g : Geom, calculateCentroid (Except.ok g) = some ⟨g.y, g.x⟩) ∧
    (∀ e : String, calculateCentroid (Except.error e) = none) ∧
    (∀ df : List ZoneRecord,
      repeatedCoords (addRounded df) =
        repeatedCoords (addRounded (df.filter fun r =>
          r.centroid_latitude.isSome && r.centroid_longitude.isSome))) := by
  refine ⟨fun g => rfl, fun e => rfl, fun df => ?_⟩
  unfold repeatedCoords freqKeys
  rw [roundedKey_addRounded_filter]

/-- C3: on the success path (valid K, non-empty centroid set, and a k-means
outcome with per-sample labels in [0, K) and K centers), every input record
with a centroid receives exactly one cluster id: the mode of the labels its
rounded coordinate's replicated instances received (a label of maximal
multiplicity among that coordinate's instances), that id lies in [0, K),
and the representative coordinate attached to the record is that cluster's
k-means cluster center (rendered to 4 decimal places), not the rounded
coordinate. -/
theorem performClustering_mode_assignment
    (K : ℤ) (assign : List (ℚ × ℚ) → List ℕ × List (ℚ × ℚ)) (df : List ZoneRecord)
    (labels : List ℕ) (centers : List (ℚ × ℚ))
    (hassign : assign (repeatedCoords (addRounded df)) = (labels, centers))
    (hK : ¬(K ≤ 0 ∨ ((repeatedCoords (addRounded df)).length : ℤ) < K))
    (hlen : labels.length = (repeatedCoords (addRounded df)).length)
    (hlab : ∀ l ∈ labels, l < K.toNat)
    (hcenters : centers.length = K.toNat) :
    performClustering K assign df =
      PerformClusteringResult.success
        ((addRounded df).map (assignRow (repeatedCoords (addRounded df)) labels centers)) ∧
    ∀ z ∈ df, ∀ a b : ℚ,
      z.centroid_latitude = some a → z.centroid_longitude = some b →
      ∃ (c : ℕ) (hc : c < centers.length),
        c < K.toNat ∧
        assignRow (repeatedCoords (addRounded df)) labels centers
            ⟨z, some (round4 a), some (round4 b)⟩ =
          { base := z
            cluster := some c
            centroid_coord := some (round4 (centers.get ⟨c, hc⟩).1,
              round4 (centers.get ⟨c, hc⟩).2) } ∧
        c ∈ labelsFor (repeatedCoords (addRounded df)) labels (round4 a, round4 b) ∧
        ∀ l ∈ labelsFor (repeatedCoords (addRounded df)) labels (round4 a, round4 b),
          (labelsFor (repeatedCoords (addRounded df)) labels (round4 a, round4 b)).count l ≤
            (labelsFor (repeatedCoords (addRounded df)) labels (round4 a, round4 b)).count c := by
  constructor
  · simp only [performClustering, kmeansFitPredict]
    rw [if_neg hK, hassign]
  · intro z hz a b ha hb
    have hk1 : (round4 a, round4 b) ∈ (addRounded df).filterMap roundedKey := by
      rw [List.mem_filterMap]
      refine ⟨⟨z, some (round4 a), some (round4 b)⟩, ?_, rfl⟩
      unfold addRounded
      rw [List.mem_map]
      exact ⟨z, hz, by rw [ha, hb]; rfl⟩
    have hkS : (round4 a, round4 b) ∈ repeatedCoords (addRounded df) := mem_repeatedCoords hk1
    have hnn : labelsFor (repeatedCoords (addRounded df)) labels (round4 a, round4 b) ≠ [] :=
      labelsFor_ne_nil hlen hkS
    obtain ⟨c, hc⟩ : ∃ c,
        labelMap (repeatedCoords (addRounded df)) labels (round4 a, round4 b) = some c := by
      cases hcm : labelMap (repeatedCoords (addRounded df)) labels (round4 a, round4 b) with
      | some c => exact ⟨c, rfl⟩
      | none =>
          unfold labelMap modeOf at hcm
          exact absurd (List.argmax_eq_none.mp hcm) hnn
    have hc' : (labelsFor (repeatedCoords (addRounded df)) labels
        (round4 a, round4 b)).argmax
          (fun l => (labelsFor (repeatedCoords (addRounded df)) labels
            (round4 a, round4 b)).count l) = some c := hc
    have hcmem : c ∈ labelsFor (repeatedCoords (addRounded df)) labels (round4 a, round4 b) :=
      List.argmax_mem (Option.mem_def.mpr hc')
    have hcK : c < K.toNat := hlab c (labelsFor_sublabels c hcmem)
    have hclen : c < centers.length := by rw [hcenters]; exact hcK
    refine ⟨c, hclen, hcK, ?_, hcmem,
      fun l hl => List.le_of_mem_argmax hl (Option.mem_def.mpr hc')⟩
    unfold assignRow
    have hkey : roundedKey ⟨z, some (round4 a), some (round4 b)⟩ =
        some (round4 a, round4 b) := rfl
    rw [hkey, Option.some_bind, hc, Option.some_bind,
      List.getElem?_eq_getElem hclen, Option.map_some', List.get_eq_getElem]

theorem performClustering_mode_assignment_witness :
    (performClustering 1 kmAssignOne zoneTripleDf =
      PerformClusteringResult.success
        ((addRounded zoneTripleDf).map
          (assignRow (repeatedCoords (addRounded zoneTripleDf)) [0, 0] [(5, 6)])) ∧
    ∀ z ∈ zoneTripleDf, ∀ a b : ℚ,
      z.centroid_latitude = some a → z.centroid_longitude = some b →
      ∃ (c : ℕ) (hc : c < [((5:ℚ), (6:ℚ))].length),
        c < (1:ℤ).toNat ∧
        assignRow (repeatedCoords (addRounded zoneTripleDf)) [0, 0] [(5, 6)]
            ⟨z, some (round4 a), some (round4 b)⟩ =
          { base := z
            cluster := some c
            centroid_coord := some (round4 ([((5:ℚ), (6:ℚ))].get ⟨c, hc⟩).1,
              round4 ([((5:ℚ), (6:ℚ))].get ⟨c, hc⟩).2) } ∧
        c ∈ labelsFor (repeatedCoords (addRounded zoneTripleDf)) [0, 0] (round4 a, round4 b) ∧
        ∀ l ∈ labelsFor (repeatedCoords (addRounded zoneTripleDf)) [0, 0] (round4 a, round4 b),
          (labelsFor (repeatedCoords (addRounded zoneTripleDf)) [0, 0]
            (round4 a, round4 b)).count l ≤
            (labelsFor (repeatedCoords (addRounded zoneTripleDf)) [0, 0]
              (round4 a, round4 b)).count c) :=
  performClustering_mode_assignment 1 kmAssignOne zoneTripleDf [0, 0] [(5, 6)] rfl
    (by
      norm_num [repeatedCoords, freqKeys, addRounded, roundedKey, round4, roundHalfEven,
        pairLE, zoneTripleDf, zoneA, zoneB, zoneNoGeom, List.insertionSort,
        List.orderedInsert, List.dedup, List.count_cons, List.count_nil, Int.floor_ofNat,
        List.filterMap_cons, List.filterMap_nil, List.length_replicate, List.replicate_succ,
        List.replicate_zero, beq_iff_eq, Prod.mk.injEq])
    (by
      norm_num [repeatedCoords, freqKeys, addRounded, roundedKey, round4, roundHalfEven,
        pairLE, zoneTripleDf, zoneA, zoneB, zoneNoGeom, List.insertionSort,
        List.orderedInsert, List.dedup, List.count_cons, List.count_nil, Int.floor_ofNat,
        List.filterMap_cons, List.filterMap_nil, List.length_replicate, List.replicate_succ,
        List.replicate_zero, beq_iff_eq, Prod.mk.injEq])
    (by decide)
    rfl

end BizScout
